import Mathlib

/-!
# Verification of the arc-protractor geometry engine

Shallow embedding of `arc_protractor_generator.py` (the alignment solver and
the protractor layout geometry) over the real numbers, together with theorems
settling the specification claims.  The Python program computes with IEEE
floats; this development idealises every float as a real number, models
`math.sqrt` / `math.asin` raising `ValueError` outside their domains as an
explicit error value, and models `return None` branches as `Option`.
Divisions by zero (which Python would report as `ZeroDivisionError`) do not
arise on the inputs the theorems quantify over: each theorem carries the
positivity hypotheses that rule them out.
-/

namespace ArcProtractor

noncomputable section

open Real

open scoped Classical

/-- The error taxonomy of the program: `invalidGeometry` for the custom-null
ordering checks, `infeasibleGeometry` for the named-alignment post-solve
checks, `mathDomain` for `ValueError` raised by `math.sqrt` / `math.asin`
outside their domains, and `unknownAlignment` for an unrecognised alignment
string. -/
inductive GenError : Type
  | invalidGeometry
  | infeasibleGeometry
  | mathDomain
  | unknownAlignment
  deriving DecidableEq

/-- `math.sqrt`: raises `ValueError` (modelled as `.error .mathDomain`) on
negative input, otherwise the real square root. -/
def pySqrt (x : ℝ) : Except GenError ℝ :=
  if x < 0 then .error .mathDomain else .ok (Real.sqrt x)

/-- `math.asin`: raises `ValueError` outside `[-1, 1]`, otherwise `arcsin`. -/
def pyAsin (x : ℝ) : Except GenError ℝ :=
  if x < -1 ∨ 1 < x then .error .mathDomain else .ok (Real.arcsin x)

/-- `math.degrees`. -/
def pyDegrees (x : ℝ) : ℝ := x * 180 / π

/-- `math.atan2 y x`, the angle of the point `(x, y)` in `(-π, π]`,
realised as the complex argument of `x + y·i`. -/
def pyAtan2 (y x : ℝ) : ℝ := Complex.arg ⟨x, y⟩

/-- IEC standard inner groove radius (mm), constant `IEC_INNER`. -/
def IEC_INNER : ℝ := 60.325

/-- IEC standard outer groove radius (mm), constant `IEC_OUTER`. -/
def IEC_OUTER : ℝ := 146.05

/-- Lines 105-165 of `calculate_null_points`: choice of the null radii from
the alignment name and the groove radii (the `if/elif` chain over
`alignment_type`, with the IEC fast path and the scaled fallback in each
branch).  The unknown-alignment `else` raises `ValueError`. -/
def select_null_points (alignment_type : String) (inner_groove outer_groove : ℝ) :
    Except GenError (ℝ × ℝ) :=
  let r_i := inner_groove
  let r_o := outer_groove
  if alignment_type = "baerwald" then
    if |r_i - IEC_INNER| < 0.01 ∧ |r_o - IEC_OUTER| < 0.01 then
      .ok (66.04, 120.90)
    else
      match pySqrt ((r_o - r_i) / (IEC_OUTER - IEC_INNER)) with
      | .error e => .error e
      | .ok scale_factor =>
          .ok (r_i + (66.04 - IEC_INNER) * scale_factor,
               r_o - (IEC_OUTER - 120.90) * scale_factor)
  else if alignment_type = "lofgren_b" then
    if |r_i - IEC_INNER| < 0.01 ∧ |r_o - IEC_OUTER| < 0.01 then
      .ok (70.29, 116.60)
    else
      match pySqrt ((r_o - r_i) / (IEC_OUTER - IEC_INNER)) with
      | .error e => .error e
      | .ok scale_factor =>
          .ok (r_i + (70.29 - IEC_INNER) * scale_factor,
               r_o - (IEC_OUTER - 116.60) * scale_factor)
  else if alignment_type = "stevenson" then
    if |r_i - IEC_INNER| < 0.01 ∧ |r_o - IEC_OUTER| < 0.01 then
      .ok (r_i, 117.42)
    else
      match pySqrt (r_i * r_o) with
      | .error e => .error e
      | .ok outer_null => .ok (r_i, outer_null)
  else .error .unknownAlignment

/-- `calculate_effective_length_from_nulls` (lines 44-79): Bauer's formula
`L = sqrt(d² + r₁·r₂)`, the overhang, the offset angle
`degrees(asin((r₂-r₁)/(2L)))` and the midpoint tracking angle
`degrees(asin(((r₁+r₂)/2)/L))`. -/
def calculate_effective_length_from_nulls (pivot_to_spindle inner_null outer_null : ℝ) :
    Except GenError (ℝ × ℝ × ℝ × ℝ) :=
  let d := pivot_to_spindle
  let r1 := inner_null
  let r2 := outer_null
  match pySqrt (d ^ 2 + r1 * r2) with
  | .error e => .error e
  | .ok effective_length =>
      let overhang := effective_length - d
      match pyAsin ((r2 - r1) / (2 * effective_length)) with
      | .error e => .error e
      | .ok oa =>
          let offset_angle := pyDegrees oa
          let r_midpoint := (r1 + r2) / 2
          match pyAsin (r_midpoint / effective_length) with
          | .error e => .error e
          | .ok ta => .ok (effective_length, overhang, offset_angle, pyDegrees ta)

/-- `calculate_null_points` (lines 82-184): select the null radii, then apply
the same Bauer-formula tail as `calculate_effective_length_from_nulls`
(lines 167-184, written out as in the source). -/
def calculate_null_points (pivot_to_spindle : ℝ) (alignment_type : String)
    (inner_groove outer_groove : ℝ) :
    Except GenError (ℝ × ℝ × ℝ × ℝ × ℝ × ℝ) :=
  let d := pivot_to_spindle
  match select_null_points alignment_type inner_groove outer_groove with
  | .error e => .error e
  | .ok (inner_null, outer_null) =>
      match pySqrt (d ^ 2 + inner_null * outer_null) with
      | .error e => .error e
      | .ok effective_length =>
          let overhang := effective_length - d
          match pyAsin ((outer_null - inner_null) / (2 * effective_length)) with
          | .error e => .error e
          | .ok oa =>
              let offset_angle := pyDegrees oa
              let r_midpoint := (inner_null + outer_null) / 2
              match pyAsin (r_midpoint / effective_length) with
              | .error e => .error e
              | .ok ta =>
                  .ok (inner_null, outer_null, effective_length, overhang,
                       offset_angle, pyDegrees ta)

/-- The solving-and-validating prefix of `draw_arc_protractor`
(lines 204-241): custom nulls are validated (strict ordering against the
groove radii, `ValueError` ≈ `InvalidGeometry` on violation) and fed to
`calculate_effective_length_from_nulls`; a named alignment goes through
`calculate_null_points` followed by the post-solve checks
(`ValueError` ≈ `InfeasibleGeometry`, with the 0.001 mm tolerance that
admits Stevenson's `inner_null == inner_groove`).  The drawing that follows
in the source consumes this solution and is modelled separately
(`calc_null_position`, `calc_arc_angle`, the arc-extension search and
`draw_alignment_grid`). -/
def draw_arc_protractor (pivot_to_spindle : ℝ) (alignment : String)
    (custom_nulls : Option (ℝ × ℝ)) (inner_groove outer_groove : ℝ) :
    Except GenError (ℝ × ℝ × ℝ × ℝ × ℝ × ℝ) :=
  match custom_nulls with
  | some (inner_null, outer_null) =>
      if inner_null ≤ inner_groove then .error .invalidGeometry
      else if outer_null ≥ outer_groove then .error .invalidGeometry
      else if inner_null ≥ outer_null then .error .invalidGeometry
      else
        match calculate_effective_length_from_nulls pivot_to_spindle inner_null outer_null with
        | .error e => .error e
        | .ok (effective_length, overhang, offset_angle, tracking_angle_midpoint) =>
            .ok (inner_null, outer_null, effective_length, overhang,
                 offset_angle, tracking_angle_midpoint)
  | none =>
      match calculate_null_points pivot_to_spindle alignment inner_groove outer_groove with
      | .error e => .error e
      | .ok (inner_null, outer_null, effective_length, overhang,
             offset_angle, tracking_angle_midpoint) =>
          if inner_null < inner_groove - 0.001 then .error .infeasibleGeometry
          else if outer_null ≥ outer_groove then .error .infeasibleGeometry
          else if inner_null ≥ outer_null then .error .infeasibleGeometry
          else
            .ok (inner_null, outer_null, effective_length, overhang,
                 offset_angle, tracking_angle_midpoint)

/-- The `mm` unit of the drawing backend (`reportlab.lib.units.mm`):
points per millimetre, `72 / 25.4`. -/
def mmUnit : ℝ := 72 / 25.4

/-- `calc_null_position` (lines 548-554): the null point as intersection of
the groove circle (centre spindle, radius `radius_from_spindle`) with the
stylus-arc circle (centre pivot, radius `effective_length`), in page units.
`x = (d² + r₁² - r₂²)/(2d)`, `y = -sqrt(r₁² - x²)`; the `math.sqrt` domain
error propagates when the circles do not intersect. -/
def calc_null_position (effective_length pivot_to_spindle radius_from_spindle : ℝ) :
    Except GenError (ℝ × ℝ) :=
  let r1 := radius_from_spindle * mmUnit
  let r2 := effective_length * mmUnit
  let d := pivot_to_spindle * mmUnit
  let x := (d ^ 2 + r1 ^ 2 - r2 ^ 2) / (2 * d)
  match pySqrt (r1 ^ 2 - x ^ 2) with
  | .error e => .error e
  | .ok s => .ok (x, -s)

/-- `calc_arc_angle` (lines 571-594): angle (degrees, normalised into
`[0, 360)`) from the pivot to the intersection of the circle of radius
`radius_from_spindle` about the spindle with the stylus-arc circle; `none`
when the radius is outside `[0, 200]` mm or the discriminant is negative. -/
def calc_arc_angle (effective_length pivot_to_spindle radius_from_spindle : ℝ) :
    Option ℝ :=
  let r1 := radius_from_spindle * mmUnit
  let r2 := effective_length * mmUnit
  let d := pivot_to_spindle * mmUnit
  if radius_from_spindle < 0 ∨ radius_from_spindle > 200 then none
  else
    let x := (d ^ 2 + r1 ^ 2 - r2 ^ 2) / (2 * d)
    let y_squared := r1 ^ 2 - x ^ 2
    if y_squared < 0 then none
    else
      let y := -Real.sqrt y_squared
      let angle := pyDegrees (pyAtan2 (y - 0) (x - d))
      some (if angle < 0 then angle + 360 else angle)

/-- The `for extension in range(target, 0, -1) ... else` loop of the
arc-extension search: the first `e` among `k, k-1, ..., 1` with `good e`,
`none` when every one fails (so at most `k` probes). -/
def first_good (good : ℕ → Bool) : ℕ → Option ℕ
  | 0 => none
  | k + 1 => if good (k + 1) then some (k + 1) else first_good good k

/-- Lines 601-616: resolution of the inner arc radius.  Try the 40 mm
extension below the inner null; on failure shrink through 40, 39, ..., 1 and
take the first extension whose `calc_arc_angle` succeeds; fall back to the
inner null itself when all fail. -/
def resolve_arc_start (effective_length pivot_to_spindle inner_null : ℝ) : ℝ :=
  let arc_start_radius := inner_null - 40
  if (calc_arc_angle effective_length pivot_to_spindle arc_start_radius).isSome then
    arc_start_radius
  else
    match first_good
        (fun e =>
          (calc_arc_angle effective_length pivot_to_spindle (inner_null - e)).isSome) 40 with
    | some e => inner_null - e
    | none => inner_null

/-- Lines 619-626: resolution of the outer arc radius, symmetric to
`resolve_arc_start` with the extension added above the outer null. -/
def resolve_arc_end (effective_length pivot_to_spindle outer_null : ℝ) : ℝ :=
  let arc_end_radius := outer_null + 40
  if (calc_arc_angle effective_length pivot_to_spindle arc_end_radius).isSome then
    arc_end_radius
  else
    match first_good
        (fun e =>
          (calc_arc_angle effective_length pivot_to_spindle (outer_null + e)).isSome) 40 with
    | some e => outer_null + e
    | none => outer_null

/-- The `while label_angle > 90: label_angle -= 180` loop of
`draw_alignment_grid` (lines 522-523). -/
def label_sub_loop (a : ℝ) : ℝ :=
  if 90 < a then label_sub_loop (a - 180) else a
termination_by (Int.ceil ((a - 90) / 180)).toNat
decreasing_by
  rename_i h
  have h1 : (0 : ℝ) < (a - 90) / 180 := by
    have : (0 : ℝ) < a - 90 := by linarith
    positivity
  have h2 : 0 < Int.ceil ((a - 90) / 180) := Int.ceil_pos.mpr h1
  have h3 : Int.ceil ((a - 180 - 90) / 180) = Int.ceil ((a - 90) / 180) - 1 := by
    rw [show (a - 180 - 90) / 180 = (a - 90) / 180 - 1 by ring]
    exact Int.ceil_sub_one _
  omega

/-- The `while label_angle < -90: label_angle += 180` loop of
`draw_alignment_grid` (lines 524-525). -/
def label_add_loop (a : ℝ) : ℝ :=
  if a < -90 then label_add_loop (a + 180) else a
termination_by (Int.ceil ((-90 - a) / 180)).toNat
decreasing_by
  rename_i h
  have h1 : (0 : ℝ) < (-90 - a) / 180 := by
    have : (0 : ℝ) < -90 - a := by linarith
    positivity
  have h2 : 0 < Int.ceil ((-90 - a) / 180) := Int.ceil_pos.mpr h1
  have h3 : Int.ceil ((-90 - (a + 180)) / 180) = Int.ceil ((-90 - a) / 180) - 1 := by
    rw [show (-90 - (a + 180)) / 180 = (-90 - a) / 180 - 1 by ring]
    exact Int.ceil_sub_one _
  omega

/-- Lines 521-525: the label angle obtained from the grid angle by the two
normalisation loops (first subtracting, then adding, 180°). -/
def label_angle (grid_angle : ℝ) : ℝ := label_add_loop (label_sub_loop grid_angle)

/-- The geometric output of `draw_alignment_grid` for one null point: stylus
dot position, the rotation applied to the grid, and the rotation applied to
the labels. -/
structure GridDraw : Type where
  x_pos : ℝ
  y_pos : ℝ
  grid_rotation : ℝ
  label_rotation : ℝ

/-- `draw_alignment_grid` (lines 443-539), geometry only: the null-point
position by the circle-intersection closed form (same as
`calc_null_position`), the grid angle `degrees(atan2(-x, y))` of the
clockwise groove tangent, and the normalised label angle.  The grid itself
is rotated by `grid_rotation` (line 487), the labels by `label_rotation`
(line 531). -/
def draw_alignment_grid (effective_length pivot_to_spindle radius_from_spindle : ℝ) :
    Except GenError GridDraw :=
  let r1 := radius_from_spindle * mmUnit
  let r2 := effective_length * mmUnit
  let d := pivot_to_spindle * mmUnit
  let x_pos := (d ^ 2 + r1 ^ 2 - r2 ^ 2) / (2 * d)
  match pySqrt (r1 ^ 2 - x_pos ^ 2) with
  | .error e => .error e
  | .ok s =>
      let y_pos := -s
      let grid_angle := pyDegrees (pyAtan2 (-x_pos) y_pos)
      .ok ⟨x_pos, y_pos, grid_angle, label_angle grid_angle⟩

/-! ## Basic lemmas about the Python-primitive models -/

theorem pySqrt_ok {x : ℝ} (h : 0 ≤ x) : pySqrt x = .ok (Real.sqrt x) := by
  simp [pySqrt, not_lt.mpr h]

theorem pySqrt_ok_elim {x v : ℝ} (h : pySqrt x = .ok v) :
    0 ≤ x ∧ v = Real.sqrt x := by
  unfold pySqrt at h
  split at h
  · exact absurd h (by simp)
  · exact ⟨not_lt.mp (by assumption), (Except.ok.inj h).symm⟩

theorem pySqrt_error_elim {x : ℝ} {e : GenError} (h : pySqrt x = .error e) :
    e = .mathDomain := by
  unfold pySqrt at h
  split at h
  · exact (Except.error.inj h).symm
  · exact absurd h (by simp)

theorem pySqrt_error_of_neg {x : ℝ} (h : x < 0) : pySqrt x = .error .mathDomain := by
  simp [pySqrt, h]

theorem pyAsin_ok {x : ℝ} (h1 : -1 ≤ x) (h2 : x ≤ 1) :
    pyAsin x = .ok (Real.arcsin x) := by
  simp [pyAsin, not_lt.mpr h1, not_lt.mpr h2]

theorem pyAsin_ok_elim {x v : ℝ} (h : pyAsin x = .ok v) :
    -1 ≤ x ∧ x ≤ 1 ∧ v = Real.arcsin x := by
  unfold pyAsin at h
  split at h
  · exact absurd h (by simp)
  · rename_i hc
    push_neg at hc
    exact ⟨hc.1, hc.2, (Except.ok.inj h).symm⟩

theorem pyAsin_error_elim {x : ℝ} {e : GenError} (h : pyAsin x = .error e) :
    e = .mathDomain := by
  unfold pyAsin at h
  split at h
  · exact (Except.error.inj h).symm
  · exact absurd h (by simp)

theorem pyAsin_error_of_gt {x : ℝ} (h : 1 < x) : pyAsin x = .error .mathDomain := by
  simp [pyAsin, Or.inr h]

/-! ## Lemmas about the alignment solver -/

/-- Under `0 < d`, `0 ≤ n1 ≤ n2` and the feasibility condition
`n2 - n1 ≤ 2d`, both `asin` arguments of the solver lie in `[0, 1]` and the
effective length is positive. -/
theorem asin_args_in_range {d n1 n2 : ℝ} (hd : 0 < d) (h1 : 0 ≤ n1) (h12 : n1 ≤ n2)
    (hfeas : n2 - n1 ≤ 2 * d) :
    0 < Real.sqrt (d ^ 2 + n1 * n2) ∧
      0 ≤ (n2 - n1) / (2 * Real.sqrt (d ^ 2 + n1 * n2)) ∧
      (n2 - n1) / (2 * Real.sqrt (d ^ 2 + n1 * n2)) ≤ 1 ∧
      0 ≤ (n1 + n2) / 2 / Real.sqrt (d ^ 2 + n1 * n2) ∧
      (n1 + n2) / 2 / Real.sqrt (d ^ 2 + n1 * n2) ≤ 1 := by
  have hprod : 0 ≤ n1 * n2 := mul_nonneg h1 (h1.trans h12)
  have harg : 0 < d ^ 2 + n1 * n2 := by positivity
  have hL : 0 < Real.sqrt (d ^ 2 + n1 * n2) := Real.sqrt_pos.mpr harg
  have hdL : d ≤ Real.sqrt (d ^ 2 + n1 * n2) := by
    rw [Real.le_sqrt hd.le harg.le]
    linarith
  refine ⟨hL, div_nonneg (by linarith) (by linarith), ?_, div_nonneg (by linarith) hL.le, ?_⟩
  · rw [div_le_one (by linarith)]
    linarith
  · rw [div_le_one hL]
    rw [Real.le_sqrt (by linarith) harg.le]
    nlinarith

/-- Closed form of a successful run of `calculate_effective_length_from_nulls`. -/
theorem celfn_ok {d n1 n2 : ℝ} (hd : 0 < d) (h1 : 0 ≤ n1) (h12 : n1 ≤ n2)
    (hfeas : n2 - n1 ≤ 2 * d) :
    calculate_effective_length_from_nulls d n1 n2 =
      .ok (Real.sqrt (d ^ 2 + n1 * n2), Real.sqrt (d ^ 2 + n1 * n2) - d,
        pyDegrees (Real.arcsin ((n2 - n1) / (2 * Real.sqrt (d ^ 2 + n1 * n2)))),
        pyDegrees (Real.arcsin ((n1 + n2) / 2 / Real.sqrt (d ^ 2 + n1 * n2)))) := by
  obtain ⟨hL, ha1l, ha1u, ha2l, ha2u⟩ := asin_args_in_range hd h1 h12 hfeas
  have hprod : 0 ≤ n1 * n2 := mul_nonneg h1 (h1.trans h12)
  have harg : (0 : ℝ) ≤ d ^ 2 + n1 * n2 := by positivity
  unfold calculate_effective_length_from_nulls
  dsimp only
  rw [pySqrt_ok harg]
  simp only
  rw [pyAsin_ok (by linarith) ha1u]
  simp only
  rw [pyAsin_ok (by linarith) ha2u]

/-- Inversion of a successful run of `calculate_effective_length_from_nulls`. -/
theorem celfn_ok_elim {d n1 n2 L o a1 a2 : ℝ}
    (h : calculate_effective_length_from_nulls d n1 n2 = .ok (L, o, a1, a2)) :
    0 ≤ d ^ 2 + n1 * n2 ∧ L = Real.sqrt (d ^ 2 + n1 * n2) ∧ o = L - d ∧
      -1 ≤ (n2 - n1) / (2 * L) ∧ (n2 - n1) / (2 * L) ≤ 1 ∧
      a1 = pyDegrees (Real.arcsin ((n2 - n1) / (2 * L))) ∧
      -1 ≤ (n1 + n2) / 2 / L ∧ (n1 + n2) / 2 / L ≤ 1 ∧
      a2 = pyDegrees (Real.arcsin ((n1 + n2) / 2 / L)) := by
  unfold calculate_effective_length_from_nulls at h
  dsimp only at h
  split at h
  · exact absurd h (by simp)
  · rename_i EL hEL
    obtain ⟨hnn, hELv⟩ := pySqrt_ok_elim hEL
    split at h
    · exact absurd h (by simp)
    · rename_i oa hoa
      obtain ⟨hoa1, hoa2, hoav⟩ := pyAsin_ok_elim hoa
      split at h
      · exact absurd h (by simp)
      · rename_i ta hta
        obtain ⟨hta1, hta2, htav⟩ := pyAsin_ok_elim hta
        simp only [Except.ok.injEq, Prod.mk.injEq] at h
        obtain ⟨hL, ho, ha1, ha2⟩ := h
        subst hELv hoav htav hL ho ha1 ha2
        exact ⟨hnn, rfl, rfl, hoa1, hoa2, rfl, hta1, hta2, rfl⟩

/-- Every error of `calculate_effective_length_from_nulls` is a math-domain
error (a `ValueError` from `math.sqrt` or `math.asin`). -/
theorem celfn_error_elim {d n1 n2 : ℝ} {e : GenError}
    (h : calculate_effective_length_from_nulls d n1 n2 = .error e) :
    e = .mathDomain := by
  unfold calculate_effective_length_from_nulls at h
  dsimp only at h
  split at h
  · rename_i he
    exact (Except.error.inj h) ▸ pySqrt_error_elim he
  · split at h
    · rename_i he
      exact (Except.error.inj h) ▸ pyAsin_error_elim he
    · split at h
      · rename_i he
        exact (Except.error.inj h) ▸ pyAsin_error_elim he
      · exact absurd h (by simp)

/-- Closed form of a successful run of `calculate_null_points`, given the
selected null radii. -/
theorem cnp_ok {d ri ro n1 n2 : ℝ} {a : String}
    (hsel : select_null_points a ri ro = .ok (n1, n2))
    (hd : 0 < d) (h1 : 0 ≤ n1) (h12 : n1 ≤ n2) (hfeas : n2 - n1 ≤ 2 * d) :
    calculate_null_points d a ri ro =
      .ok (n1, n2, Real.sqrt (d ^ 2 + n1 * n2), Real.sqrt (d ^ 2 + n1 * n2) - d,
        pyDegrees (Real.arcsin ((n2 - n1) / (2 * Real.sqrt (d ^ 2 + n1 * n2)))),
        pyDegrees (Real.arcsin ((n1 + n2) / 2 / Real.sqrt (d ^ 2 + n1 * n2)))) := by
  obtain ⟨hL, ha1l, ha1u, ha2l, ha2u⟩ := asin_args_in_range hd h1 h12 hfeas
  have hprod : 0 ≤ n1 * n2 := mul_nonneg h1 (h1.trans h12)
  have harg : (0 : ℝ) ≤ d ^ 2 + n1 * n2 := by positivity
  unfold calculate_null_points
  dsimp only
  rw [hsel]
  simp only
  rw [pySqrt_ok harg]
  simp only
  rw [pyAsin_ok (by linarith) ha1u]
  simp only
  rw [pyAsin_ok (by linarith) ha2u]

/-- Inversion of a successful run of `calculate_null_points`. -/
theorem cnp_ok_elim {d ri ro n1 n2 L o a1 a2 : ℝ} {a : String}
    (h : calculate_null_points d a ri ro = .ok (n1, n2, L, o, a1, a2)) :
    select_null_points a ri ro = .ok (n1, n2) ∧
      0 ≤ d ^ 2 + n1 * n2 ∧ L = Real.sqrt (d ^ 2 + n1 * n2) ∧ o = L - d ∧
      -1 ≤ (n2 - n1) / (2 * L) ∧ (n2 - n1) / (2 * L) ≤ 1 ∧
      a1 = pyDegrees (Real.arcsin ((n2 - n1) / (2 * L))) ∧
      -1 ≤ (n1 + n2) / 2 / L ∧ (n1 + n2) / 2 / L ≤ 1 ∧
      a2 = pyDegrees (Real.arcsin ((n1 + n2) / 2 / L)) := by
  unfold calculate_null_points at h
  dsimp only at h
  split at h
  · exact absurd h (by simp)
  · rename_i p hp
    obtain ⟨m1, m2⟩ := p
    split at h
    · exact absurd h (by simp)
    · rename_i EL hEL
      obtain ⟨hnn, hELv⟩ := pySqrt_ok_elim hEL
      split at h
      · exact absurd h (by simp)
      · rename_i oa hoa
        obtain ⟨hoa1, hoa2, hoav⟩ := pyAsin_ok_elim hoa
        split at h
        · exact absurd h (by simp)
        · rename_i ta hta
          obtain ⟨hta1, hta2, htav⟩ := pyAsin_ok_elim hta
          simp only [Except.ok.injEq, Prod.mk.injEq] at h
          obtain ⟨h1, h2, hL, ho, ha1, ha2⟩ := h
          subst h1 h2 hELv hoav htav hL ho ha1 ha2
          exact ⟨hp, hnn, rfl, rfl, hoa1, hoa2, rfl, hta1, hta2, rfl⟩

/-- The IEC tolerance test of `calculate_null_points`. -/
def near_iec (ri ro : ℝ) : Prop :=
  |ri - IEC_INNER| < 0.01 ∧ |ro - IEC_OUTER| < 0.01

theorem select_baerwald_iec {ri ro : ℝ} (h : near_iec ri ro) :
    select_null_points "baerwald" ri ro = .ok (66.04, 120.90) := by
  unfold near_iec at h
  unfold select_null_points
  rw [if_pos rfl, if_pos h]

theorem select_baerwald_scaled {ri ro : ℝ} (h : ¬near_iec ri ro) (hord : ri ≤ ro) :
    select_null_points "baerwald" ri ro =
      .ok (ri + (66.04 - IEC_INNER) * Real.sqrt ((ro - ri) / (IEC_OUTER - IEC_INNER)),
           ro - (IEC_OUTER - 120.90) * Real.sqrt ((ro - ri) / (IEC_OUTER - IEC_INNER))) := by
  unfold near_iec at h
  have hnn : (0 : ℝ) ≤ (ro - ri) / (IEC_OUTER - IEC_INNER) :=
    div_nonneg (by linarith) (by norm_num [IEC_INNER, IEC_OUTER])
  unfold select_null_points
  rw [if_pos rfl, if_neg h, pySqrt_ok hnn]

theorem select_lofgren_iec {ri ro : ℝ} (h : near_iec ri ro) :
    select_null_points "lofgren_b" ri ro = .ok (70.29, 116.60) := by
  unfold near_iec at h
  unfold select_null_points
  rw [if_neg (by decide), if_pos rfl, if_pos h]

theorem select_lofgren_scaled {ri ro : ℝ} (h : ¬near_iec ri ro) (hord : ri ≤ ro) :
    select_null_points "lofgren_b" ri ro =
      .ok (ri + (70.29 - IEC_INNER) * Real.sqrt ((ro - ri) / (IEC_OUTER - IEC_INNER)),
           ro - (IEC_OUTER - 116.60) * Real.sqrt ((ro - ri) / (IEC_OUTER - IEC_INNER))) := by
  unfold near_iec at h
  have hnn : (0 : ℝ) ≤ (ro - ri) / (IEC_OUTER - IEC_INNER) :=
    div_nonneg (by linarith) (by norm_num [IEC_INNER, IEC_OUTER])
  unfold select_null_points
  rw [if_neg (by decide), if_pos rfl, if_neg h, pySqrt_ok hnn]

theorem select_stevenson_iec {ri ro : ℝ} (h : near_iec ri ro) :
    select_null_points "stevenson" ri ro = .ok (ri, 117.42) := by
  unfold near_iec at h
  unfold select_null_points
  rw [if_neg (by decide), if_neg (by decide), if_pos rfl, if_pos h]

theorem select_stevenson_geomean {ri ro : ℝ} (h : ¬near_iec ri ro)
    (hnn : 0 ≤ ri * ro) :
    select_null_points "stevenson" ri ro = .ok (ri, Real.sqrt (ri * ro)) := by
  unfold near_iec at h
  unfold select_null_points
  rw [if_neg (by decide), if_neg (by decide), if_pos rfl, if_neg h, pySqrt_ok hnn]

/-- The IEC groove radii pass the tolerance test. -/
theorem near_iec_std : near_iec 60.325 146.05 := by
  constructor <;> norm_num [near_iec, IEC_INNER, IEC_OUTER]

/-! ## Lemmas about the validating prefix of `draw_arc_protractor` -/

/-- Custom nulls violating the strict ordering are rejected with
`InvalidGeometry` before any solving happens. -/
theorem draw_custom_invalid {d ri ro n1 n2 : ℝ} {a : String}
    (h : ¬(ri < n1 ∧ n1 < n2 ∧ n2 < ro)) :
    draw_arc_protractor d a (some (n1, n2)) ri ro = .error .invalidGeometry := by
  unfold draw_arc_protractor
  dsimp only
  split_ifs with c1 c2 c3
  · rfl
  · rfl
  · rfl
  · exact absurd ⟨not_le.mp c1, not_le.mp c3, not_le.mp c2⟩ h

/-- Custom nulls satisfying the strict ordering never produce
`InvalidGeometry`: any later failure is a math-domain error. -/
theorem draw_custom_not_invalid {d ri ro n1 n2 : ℝ} {a : String}
    (h : ri < n1 ∧ n1 < n2 ∧ n2 < ro) :
    draw_arc_protractor d a (some (n1, n2)) ri ro ≠ .error .invalidGeometry := by
  unfold draw_arc_protractor
  dsimp only
  rw [if_neg (not_le.mpr h.1), if_neg (not_le.mpr h.2.2), if_neg (not_le.mpr h.2.1)]
  split
  · rename_i e he
    rw [celfn_error_elim he]
    simp
  · simp

/-- Closed form of a successful custom-null run of `draw_arc_protractor`. -/
theorem draw_custom_ok {d ri ro n1 n2 : ℝ} {a : String}
    (h : ri < n1 ∧ n1 < n2 ∧ n2 < ro) (hd : 0 < d) (h1 : 0 ≤ n1)
    (hfeas : n2 - n1 ≤ 2 * d) :
    draw_arc_protractor d a (some (n1, n2)) ri ro =
      .ok (n1, n2, Real.sqrt (d ^ 2 + n1 * n2), Real.sqrt (d ^ 2 + n1 * n2) - d,
        pyDegrees (Real.arcsin ((n2 - n1) / (2 * Real.sqrt (d ^ 2 + n1 * n2)))),
        pyDegrees (Real.arcsin ((n1 + n2) / 2 / Real.sqrt (d ^ 2 + n1 * n2)))) := by
  unfold draw_arc_protractor
  dsimp only
  rw [if_neg (not_le.mpr h.1), if_neg (not_le.mpr h.2.2), if_neg (not_le.mpr h.2.1),
    celfn_ok hd h1 h.2.1.le hfeas]

/-- A named-alignment run of `draw_arc_protractor` is the post-solve
validation applied to the result of `calculate_null_points`. -/
theorem draw_named_eq {d ri ro n1 n2 L o a1 a2 : ℝ} {a : String}
    (h : calculate_null_points d a ri ro = .ok (n1, n2, L, o, a1, a2)) :
    draw_arc_protractor d a none ri ro =
      (if n1 < ri - 0.001 then .error .infeasibleGeometry
       else if n2 ≥ ro then .error .infeasibleGeometry
       else if n1 ≥ n2 then .error .infeasibleGeometry
       else .ok (n1, n2, L, o, a1, a2)) := by
  unfold draw_arc_protractor
  dsimp only
  rw [h]

/-- The Baerwald solution at 215.5 mm mounting distance on IEC grooves,
written out in closed form. -/
theorem cnp_baerwald_2155 :
    calculate_null_points 215.5 "baerwald" 60.325 146.05 =
      .ok (66.04, 120.90, Real.sqrt (215.5 ^ 2 + 66.04 * 120.90),
        Real.sqrt (215.5 ^ 2 + 66.04 * 120.90) - 215.5,
        pyDegrees (Real.arcsin ((120.90 - 66.04) / (2 * Real.sqrt (215.5 ^ 2 + 66.04 * 120.90)))),
        pyDegrees (Real.arcsin ((66.04 + 120.90) / 2 / Real.sqrt (215.5 ^ 2 + 66.04 * 120.90)))) :=
  cnp_ok (select_baerwald_iec near_iec_std) (by norm_num) (by norm_num) (by norm_num)
    (by norm_num)

/-- Numeric bracket for the Baerwald effective length at 215.5 mm. -/
theorem sqrt_b2155_bounds :
    233.2905 < Real.sqrt (215.5 ^ 2 + 66.04 * 120.90) ∧
      Real.sqrt (215.5 ^ 2 + 66.04 * 120.90) < 233.291 := by
  constructor
  · rw [Real.lt_sqrt (by norm_num)]
    norm_num
  · rw [Real.sqrt_lt' (by norm_num)]
    norm_num

/-! ## Claim theorems -/

/-- C1 (amended): for every pivot-to-spindle distance `d > 0` and null radii
`0 < innerNull < outerNull` **with `outerNull - innerNull ≤ 2·d`** (without
which the `asin` arguments leave `[-1, 1]` and the solver raises a math
domain error, see C10), `calculate_effective_length_from_nulls` returns
`effectiveLength = sqrt(d² + innerNull·outerNull)`,
`overhang = effectiveLength - d`,
`mountingAngle = degrees(asin((outerNull - innerNull)/(2·effectiveLength)))`
and
`midpointOffsetAngle = degrees(asin((innerNull + outerNull)/(2·effectiveLength)))`;
and every successful run of the named-alignment path
`calculate_null_points` computes the same four quantities by the same
formulas from its null radii. -/
theorem C1_solver_formulas :
    (∀ d n1 n2 : ℝ, 0 < d → 0 < n1 → n1 < n2 → n2 - n1 ≤ 2 * d →
      calculate_effective_length_from_nulls d n1 n2 =
        .ok (Real.sqrt (d ^ 2 + n1 * n2), Real.sqrt (d ^ 2 + n1 * n2) - d,
          pyDegrees (Real.arcsin ((n2 - n1) / (2 * Real.sqrt (d ^ 2 + n1 * n2)))),
          pyDegrees (Real.arcsin ((n1 + n2) / (2 * Real.sqrt (d ^ 2 + n1 * n2)))))) ∧
    (∀ (d ri ro n1 n2 L o a1 a2 : ℝ) (a : String),
      calculate_null_points d a ri ro = .ok (n1, n2, L, o, a1, a2) →
      L = Real.sqrt (d ^ 2 + n1 * n2) ∧ o = L - d ∧
        a1 = pyDegrees (Real.arcsin ((n2 - n1) / (2 * L))) ∧
        a2 = pyDegrees (Real.arcsin ((n1 + n2) / (2 * L)))) := by
  constructor
  · intro d n1 n2 hd h1 h12 hfeas
    rw [celfn_ok hd h1.le h12.le hfeas, div_div]
  · intro d ri ro n1 n2 L o a1 a2 a h
    obtain ⟨-, -, hL, ho, -, -, ha1, -, -, ha2⟩ := cnp_ok_elim h
    exact ⟨hL, ho, ha1, by rw [ha2, div_div]⟩

/-- Witness for C1: the Baerwald IEC null radii at 215.5 mm. -/
theorem C1_solver_formulas_witness :
    calculate_effective_length_from_nulls 215.5 66.04 120.90 =
      .ok (Real.sqrt (215.5 ^ 2 + 66.04 * 120.90),
        Real.sqrt (215.5 ^ 2 + 66.04 * 120.90) - 215.5,
        pyDegrees (Real.arcsin ((120.90 - 66.04) / (2 * Real.sqrt (215.5 ^ 2 + 66.04 * 120.90)))),
        pyDegrees (Real.arcsin ((66.04 + 120.90) / (2 * Real.sqrt (215.5 ^ 2 + 66.04 * 120.90))))) :=
  C1_solver_formulas.1 215.5 66.04 120.90 (by norm_num) (by norm_num) (by norm_num)
    (by norm_num)

/-- Counterexample to C1 as stated: at `d = 1`, `innerNull = 1`,
`outerNull = 100` (which satisfy `d > 0` and `0 < innerNull < outerNull`)
the solver does not return the four quantities: it raises a math domain
error, because the `asin` argument exceeds 1. -/
theorem C1_counterexample :
    (0 : ℝ) < 1 ∧ (0 : ℝ) < 1 ∧ (1 : ℝ) < 100 ∧
      calculate_effective_length_from_nulls 1 1 100 = .error .mathDomain := by
  refine ⟨by norm_num, by norm_num, by norm_num, ?_⟩
  have hs : Real.sqrt (101 : ℝ) < 49.5 := by
    rw [Real.sqrt_lt' (by norm_num)]
    norm_num
  have hpos : (0 : ℝ) < Real.sqrt (101 : ℝ) := Real.sqrt_pos.mpr (by norm_num)
  unfold calculate_effective_length_from_nulls
  dsimp only
  rw [pySqrt_ok (by norm_num)]
  simp only
  rw [pyAsin_error_of_gt (by
    rw [show ((1 : ℝ) ^ 2 + 1 * 100) = 101 by norm_num, lt_div_iff₀ (by linarith)]
    linarith)]

/-- C10: for `d > 0` and `0 < innerNull < outerNull`, both `asin` arguments
of the solver lie in `[-1, 1]` iff `outerNull - innerNull ≤ 2·d`; when
`outerNull - innerNull > 2·d` the midpoint argument exceeds 1 and
`calculate_effective_length_from_nulls` raises a math domain error instead
of returning a solution; and neither solver entry point validates
`pivotToSpindle > 0` before computing — both succeed at negative mounting
distances. -/
theorem C10_implicit_precondition :
    (∀ d n1 n2 : ℝ, 0 < d → 0 < n1 → n1 < n2 →
      (((-1 ≤ (n2 - n1) / (2 * Real.sqrt (d ^ 2 + n1 * n2)) ∧
          (n2 - n1) / (2 * Real.sqrt (d ^ 2 + n1 * n2)) ≤ 1) ∧
        (-1 ≤ (n1 + n2) / (2 * Real.sqrt (d ^ 2 + n1 * n2)) ∧
          (n1 + n2) / (2 * Real.sqrt (d ^ 2 + n1 * n2)) ≤ 1)) ↔
        n2 - n1 ≤ 2 * d) ∧
      (2 * d < n2 - n1 →
        1 < (n1 + n2) / (2 * Real.sqrt (d ^ 2 + n1 * n2)) ∧
        calculate_effective_length_from_nulls d n1 n2 = .error .mathDomain)) ∧
    calculate_effective_length_from_nulls (-10) 99 101 =
      .ok (Real.sqrt ((-10 : ℝ) ^ 2 + 99 * 101), Real.sqrt ((-10 : ℝ) ^ 2 + 99 * 101) - (-10),
        pyDegrees (Real.arcsin ((101 - 99) / (2 * Real.sqrt ((-10 : ℝ) ^ 2 + 99 * 101)))),
        pyDegrees (Real.arcsin ((99 + 101) / 2 / Real.sqrt ((-10 : ℝ) ^ 2 + 99 * 101)))) ∧
    calculate_null_points (-100) "baerwald" 60.325 146.05 =
      .ok (66.04, 120.90, Real.sqrt ((-100 : ℝ) ^ 2 + 66.04 * 120.90),
        Real.sqrt ((-100 : ℝ) ^ 2 + 66.04 * 120.90) - (-100),
        pyDegrees
          (Real.arcsin ((120.90 - 66.04) / (2 * Real.sqrt ((-100 : ℝ) ^ 2 + 66.04 * 120.90)))),
        pyDegrees
          (Real.arcsin ((66.04 + 120.90) / 2 / Real.sqrt ((-100 : ℝ) ^ 2 + 66.04 * 120.90)))) := by
  refine ⟨?_, ?_, ?_⟩
  · intro d n1 n2 hd h1 h12
    have hprod : 0 < n1 * n2 := mul_pos h1 (h1.trans h12)
    have harg : (0 : ℝ) < d ^ 2 + n1 * n2 := by positivity
    have hL : 0 < Real.sqrt (d ^ 2 + n1 * n2) := Real.sqrt_pos.mpr harg
    have hLsq : Real.sqrt (d ^ 2 + n1 * n2) ^ 2 = d ^ 2 + n1 * n2 := Real.sq_sqrt harg.le
    constructor
    · constructor
      · rintro ⟨⟨-, -⟩, -, h2u⟩
        rw [div_le_one (by linarith)] at h2u
        have hsum : 0 ≤ n1 + n2 := by linarith
        nlinarith [mul_le_mul h2u h2u hsum (by linarith : (0 : ℝ) ≤ 2 * Real.sqrt (d ^ 2 + n1 * n2))]
      · intro hfeas
        obtain ⟨-, ha1l, ha1u, ha2l, ha2u⟩ := asin_args_in_range hd h1.le h12.le hfeas
        rw [div_div] at ha2l ha2u
        exact ⟨⟨by linarith, ha1u⟩, by linarith, ha2u⟩
    · intro hgt
      have h2u : 1 < (n1 + n2) / (2 * Real.sqrt (d ^ 2 + n1 * n2)) := by
        rw [lt_div_iff₀ (by linarith)]
        nlinarith [Real.sq_sqrt harg.le, Real.sqrt_nonneg (d ^ 2 + n1 * n2)]
      refine ⟨h2u, ?_⟩
      unfold calculate_effective_length_from_nulls
      dsimp only
      rw [pySqrt_ok harg.le]
      simp only
      by_cases hc1 : 1 < (n2 - n1) / (2 * Real.sqrt (d ^ 2 + n1 * n2))
      · rw [pyAsin_error_of_gt hc1]
      · rw [pyAsin_ok ?_ (not_lt.mp hc1)]
        · simp only
          rw [pyAsin_error_of_gt (by rw [div_div]; exact h2u)]
        · have : 0 ≤ (n2 - n1) / (2 * Real.sqrt (d ^ 2 + n1 * n2)) :=
            div_nonneg (by linarith) (by linarith)
          linarith
  · have h100 : (100 : ℝ) ≤ Real.sqrt (10099 : ℝ) := by
      rw [Real.le_sqrt (by norm_num) (by norm_num)]
      norm_num
    have hLpos : (0 : ℝ) < Real.sqrt (10099 : ℝ) := by linarith
    unfold calculate_effective_length_from_nulls
    dsimp only
    rw [pySqrt_ok (by norm_num)]
    simp only
    rw [pyAsin_ok
      (by
        have h0 : (0 : ℝ) ≤ (101 - 99) / (2 * Real.sqrt ((-10 : ℝ) ^ 2 + 99 * 101)) := by
          positivity
        linarith)
      (by
        rw [show ((-10 : ℝ) ^ 2 + 99 * 101) = 10099 by norm_num,
          div_le_one (by positivity)]
        linarith)]
    simp only
    rw [pyAsin_ok
      (by
        have h0 : (0 : ℝ) ≤ (99 + 101) / 2 / Real.sqrt ((-10 : ℝ) ^ 2 + 99 * 101) := by
          positivity
        linarith)
      (by
        rw [show ((-10 : ℝ) ^ 2 + 99 * 101) = 10099 by norm_num,
          div_le_one (by positivity)]
        linarith)]
  · have h94 : (93.47 : ℝ) ≤ Real.sqrt ((-100 : ℝ) ^ 2 + 66.04 * 120.90) := by
      rw [Real.le_sqrt (by norm_num) (by norm_num)]
      norm_num
    have hLpos : (0 : ℝ) < Real.sqrt ((-100 : ℝ) ^ 2 + 66.04 * 120.90) := by linarith
    unfold calculate_null_points
    dsimp only
    rw [select_baerwald_iec near_iec_std]
    simp only
    rw [pySqrt_ok (by norm_num)]
    simp only
    rw [pyAsin_ok
      (by
        have h0 : (0 : ℝ) ≤ (120.90 - 66.04) / (2 * Real.sqrt ((-100 : ℝ) ^ 2 + 66.04 * 120.90)) := by
          positivity
        linarith)
      (by rw [div_le_one (by positivity)]; linarith)]
    simp only
    rw [pyAsin_ok
      (by
        have h0 : (0 : ℝ) ≤ (66.04 + 120.90) / 2 / Real.sqrt ((-100 : ℝ) ^ 2 + 66.04 * 120.90) := by
          positivity
        linarith)
      (by rw [div_le_one (by positivity)]; linarith)]

/-- Witness for C10 at the Baerwald IEC values and 215.5 mm. -/
theorem C10_implicit_precondition_witness :
    (((-1 ≤ (120.90 - 66.04) / (2 * Real.sqrt ((215.5 : ℝ) ^ 2 + 66.04 * 120.90)) ∧
        (120.90 - 66.04) / (2 * Real.sqrt ((215.5 : ℝ) ^ 2 + 66.04 * 120.90)) ≤ 1) ∧
      (-1 ≤ (66.04 + 120.90) / (2 * Real.sqrt ((215.5 : ℝ) ^ 2 + 66.04 * 120.90)) ∧
        (66.04 + 120.90) / (2 * Real.sqrt ((215.5 : ℝ) ^ 2 + 66.04 * 120.90)) ≤ 1)) ↔
      (120.90 - 66.04 : ℝ) ≤ 2 * 215.5) ∧
    (2 * 215.5 < (120.90 - 66.04 : ℝ) →
      1 < (66.04 + 120.90) / (2 * Real.sqrt ((215.5 : ℝ) ^ 2 + 66.04 * 120.90)) ∧
      calculate_effective_length_from_nulls 215.5 66.04 120.90 = .error .mathDomain) :=
  C10_implicit_precondition.1 215.5 66.04 120.90 (by norm_num) (by norm_num) (by norm_num)

/-- C3: the custom-null path fails with `InvalidGeometry` iff the strict
ordering `innerGroove < innerNull < outerNull < outerGroove` is violated
(and when it holds, no `InvalidGeometry` error is possible); the rejection
happens before any solution is computed. -/
theorem C3_custom_validation :
    ∀ (d ri ro n1 n2 : ℝ) (a : String),
      (¬(ri < n1 ∧ n1 < n2 ∧ n2 < ro) →
        draw_arc_protractor d a (some (n1, n2)) ri ro = .error .invalidGeometry) ∧
      ((ri < n1 ∧ n1 < n2 ∧ n2 < ro) →
        draw_arc_protractor d a (some (n1, n2)) ri ro ≠ .error .invalidGeometry) :=
  fun _ _ _ _ _ _ => ⟨draw_custom_invalid, draw_custom_not_invalid⟩

/-- Witness for C3: the spec's concrete scenario 3 — custom nulls
`(50, 200)` on IEC grooves are rejected with `InvalidGeometry` (the inner
null is not greater than the inner groove radius). -/
theorem C3_custom_validation_witness :
    draw_arc_protractor 215.5 "baerwald" (some (50, 200)) 60.325 146.05 =
      .error .invalidGeometry :=
  (C3_custom_validation 215.5 60.325 146.05 50 200 "baerwald").1
    (fun h => absurd h.1 (by norm_num))

/-- C4: on the named-alignment path, once `calculate_null_points` has
produced the null radii, the generator fails with `InfeasibleGeometry` iff
`innerNull ≥ innerGroove - 0.001`, `outerNull < outerGroove` or
`innerNull < outerNull` is violated; when all three hold it returns the
solution unchanged (in particular Stevenson's `innerNull = innerGroove`
passes the tolerance check). -/
theorem C4_post_solve_validation :
    ∀ (d ri ro n1 n2 L o a1 a2 : ℝ) (a : String),
      calculate_null_points d a ri ro = .ok (n1, n2, L, o, a1, a2) →
      (draw_arc_protractor d a none ri ro = .error .infeasibleGeometry ↔
        (n1 < ri - 0.001 ∨ ro ≤ n2 ∨ n2 ≤ n1)) ∧
      ((ri - 0.001 ≤ n1 ∧ n2 < ro ∧ n1 < n2) →
        draw_arc_protractor d a none ri ro = .ok (n1, n2, L, o, a1, a2)) := by
  intro d ri ro n1 n2 L o a1 a2 a h
  rw [draw_named_eq h]
  constructor
  · split_ifs with c1 c2 c3
    · exact iff_of_true rfl (Or.inl c1)
    · exact iff_of_true rfl (Or.inr (Or.inl c2))
    · exact iff_of_true rfl (Or.inr (Or.inr c3))
    · refine iff_of_false (by simp) ?_
      rintro (hv | hv | hv)
      · exact c1 hv
      · exact c2 hv
      · exact c3 hv
  · rintro ⟨k1, k2, k3⟩
    rw [if_neg (not_lt.mpr k1), if_neg (not_le.mpr k2), if_neg (not_le.mpr k3)]

/-- Witness for C4 at Baerwald, 215.5 mm, IEC grooves: the computed nulls
pass all three checks and the solution is returned unchanged. -/
theorem C4_post_solve_validation_witness :
    (draw_arc_protractor 215.5 "baerwald" none 60.325 146.05 =
        .error .infeasibleGeometry ↔
      ((66.04 : ℝ) < 60.325 - 0.001 ∨ (146.05 : ℝ) ≤ 120.90 ∨ (120.90 : ℝ) ≤ 66.04)) ∧
    (((60.325 : ℝ) - 0.001 ≤ 66.04 ∧ (120.90 : ℝ) < 146.05 ∧ (66.04 : ℝ) < 120.90) →
      draw_arc_protractor 215.5 "baerwald" none 60.325 146.05 =
        .ok (66.04, 120.90, Real.sqrt (215.5 ^ 2 + 66.04 * 120.90),
          Real.sqrt (215.5 ^ 2 + 66.04 * 120.90) - 215.5,
          pyDegrees
            (Real.arcsin ((120.90 - 66.04) / (2 * Real.sqrt (215.5 ^ 2 + 66.04 * 120.90)))),
          pyDegrees
            (Real.arcsin ((66.04 + 120.90) / 2 / Real.sqrt (215.5 ^ 2 + 66.04 * 120.90))))) :=
  C4_post_solve_validation 215.5 60.325 146.05 66.04 120.90
    (Real.sqrt (215.5 ^ 2 + 66.04 * 120.90))
    (Real.sqrt (215.5 ^ 2 + 66.04 * 120.90) - 215.5)
    (pyDegrees (Real.arcsin ((120.90 - 66.04) / (2 * Real.sqrt (215.5 ^ 2 + 66.04 * 120.90)))))
    (pyDegrees (Real.arcsin ((66.04 + 120.90) / 2 / Real.sqrt (215.5 ^ 2 + 66.04 * 120.90))))
    "baerwald" cnp_baerwald_2155

/-- C2: null-radius selection per alignment.  On grooves within the IEC
tolerance the published null radii are returned (Baerwald `66.04/120.90`,
Löfgren B `70.29/116.60`, Stevenson `innerGroove` exactly and `117.42`);
otherwise Baerwald and Löfgren B offset inward from the groove edges scaled
by `sqrt((outerGroove-innerGroove)/(146.05-60.325))` and Stevenson uses the
geometric mean; the nulls returned by `calculate_null_points` are exactly
the selected ones. -/
theorem C2_null_selection :
    ∀ ri ro : ℝ, 0 ≤ ri → ri ≤ ro →
      (near_iec ri ro →
        select_null_points "baerwald" ri ro = .ok (66.04, 120.90) ∧
        select_null_points "lofgren_b" ri ro = .ok (70.29, 116.60) ∧
        select_null_points "stevenson" ri ro = .ok (ri, 117.42)) ∧
      (¬near_iec ri ro →
        select_null_points "baerwald" ri ro =
          .ok (ri + (66.04 - 60.325) * Real.sqrt ((ro - ri) / (146.05 - 60.325)),
               ro - (146.05 - 120.90) * Real.sqrt ((ro - ri) / (146.05 - 60.325))) ∧
        select_null_points "lofgren_b" ri ro =
          .ok (ri + (70.29 - 60.325) * Real.sqrt ((ro - ri) / (146.05 - 60.325)),
               ro - (146.05 - 116.60) * Real.sqrt ((ro - ri) / (146.05 - 60.325))) ∧
        select_null_points "stevenson" ri ro = .ok (ri, Real.sqrt (ri * ro))) ∧
      (∀ (d n1 n2 L o a1 a2 : ℝ) (a : String),
        calculate_null_points d a ri ro = .ok (n1, n2, L, o, a1, a2) →
        select_null_points a ri ro = .ok (n1, n2)) := by
  intro ri ro h0 hord
  refine ⟨?_, ?_, ?_⟩
  · intro h
    exact ⟨select_baerwald_iec h, select_lofgren_iec h, select_stevenson_iec h⟩
  · intro h
    refine ⟨?_, ?_, select_stevenson_geomean h (mul_nonneg h0 (h0.trans hord))⟩
    · rw [select_baerwald_scaled h hord]
      norm_num [IEC_INNER, IEC_OUTER]
    · rw [select_lofgren_scaled h hord]
      norm_num [IEC_INNER, IEC_OUTER]
  · intro d n1 n2 L o a1 a2 a h
    exact (cnp_ok_elim h).1

/-- Witness for C2: the spec's concrete scenario 2 null radii — Stevenson on
IEC grooves selects `innerGroove` exactly and `117.42`. -/
theorem C2_null_selection_witness :
    select_null_points "stevenson" 60.325 146.05 = .ok (60.325, 117.42) :=
  ((C2_null_selection 60.325 146.05 (by norm_num) (by norm_num)).1 near_iec_std).2.2

/-- Counterexample to C8 as stated: at 215.5 mm with Baerwald on IEC grooves
the code does return nulls `66.04/120.90`, but the effective length is
`sqrt(215.5² + 66.04·120.90) ≈ 233.29 mm`, more than 5 mm away from the
claimed `≈ 239.07 mm`. -/
theorem C8_scenario1_counterexample :
    calculate_null_points 215.5 "baerwald" 60.325 146.05 =
      .ok (66.04, 120.90, Real.sqrt (215.5 ^ 2 + 66.04 * 120.90),
        Real.sqrt (215.5 ^ 2 + 66.04 * 120.90) - 215.5,
        pyDegrees (Real.arcsin ((120.90 - 66.04) / (2 * Real.sqrt (215.5 ^ 2 + 66.04 * 120.90)))),
        pyDegrees (Real.arcsin ((66.04 + 120.90) / 2 / Real.sqrt (215.5 ^ 2 + 66.04 * 120.90)))) ∧
    5 < |Real.sqrt (215.5 ^ 2 + 66.04 * 120.90) - 239.07| := by
  refine ⟨cnp_baerwald_2155, ?_⟩
  obtain ⟨h1, h2⟩ := sqrt_b2155_bounds
  rw [abs_of_neg (by linarith)]
  linarith

/-- Numeric bracket for the Baerwald mounting angle at 215.5 mm:
`degrees(asin((120.90-66.04)/(2·L)))` lies strictly between 6.73° and
6.77°. -/
theorem mounting_angle_2155_bounds :
    6.73 < pyDegrees
        (Real.arcsin ((120.90 - 66.04) / (2 * Real.sqrt (215.5 ^ 2 + 66.04 * 120.90)))) ∧
      pyDegrees
        (Real.arcsin ((120.90 - 66.04) / (2 * Real.sqrt (215.5 ^ 2 + 66.04 * 120.90)))) < 6.77 := by
  obtain ⟨hL1, hL2⟩ := sqrt_b2155_bounds
  set L := Real.sqrt (215.5 ^ 2 + 66.04 * 120.90) with hLdef
  set t := (120.90 - 66.04) / (2 * L) with htdef
  have htlo : 0.117577 < t := by
    rw [htdef, lt_div_iff₀ (by linarith)]
    nlinarith
  have hthi : t < 0.117579 := by
    rw [htdef, div_lt_iff₀ (by linarith)]
    nlinarith
  set θ := Real.arcsin t with hθdef
  have hsin : Real.sin θ = t := Real.sin_arcsin (by linarith) (by linarith)
  have hθpos : 0 < θ := Real.arcsin_pos.mpr (by linarith)
  have hπ1 : (3.141592 : ℝ) < π := Real.pi_gt_d6
  have hπ2 : π < 3.141593 := Real.pi_lt_d6
  have hθ02 : θ ≤ 0.2 := by
    by_contra hh
    push_neg at hh
    have hy : θ ≤ π / 2 := Real.arcsin_le_pi_div_two t
    have hmono : Real.sin 0.2 < Real.sin θ :=
      Real.sin_lt_sin_of_lt_of_le_pi_div_two (by linarith) hy hh
    have hcube : (0.2 : ℝ) - 0.2 ^ 3 / 4 < Real.sin 0.2 :=
      Real.sin_gt_sub_cube (by norm_num) (by norm_num)
    rw [hsin] at hmono
    norm_num at hcube
    linarith
  have hstep : θ - θ ^ 3 / 4 < t := by
    have := Real.sin_gt_sub_cube hθpos (by linarith : θ ≤ 1)
    rwa [hsin] at this
  have hθ1 : θ < 0.1196 := by
    nlinarith [pow_le_pow_left hθpos.le hθ02 3]
  have hθhi : θ < 0.118007 := by
    nlinarith [pow_le_pow_left hθpos.le hθ1.le 3]
  have hθlo : 0.117577 < θ := by
    have := Real.sin_lt hθpos
    rw [hsin] at this
    linarith
  unfold pyDegrees
  constructor
  · rw [lt_div_iff₀ Real.pi_pos]
    nlinarith
  · rw [div_lt_iff₀ Real.pi_pos]
    nlinarith

/-- C8 (amended): at `pivotToSpindle = 215.5` mm with Baerwald on
IEC-standard grooves the solver returns `innerNull = 66.04`,
`outerNull = 120.90`, `effectiveLength ≈ 233.29 mm`, `overhang ≈ 17.79 mm`
and `mountingAngle ≈ 6.75°` (the spec's `239.07 mm / 23.57 mm / 22.8°` do
not match the code's formula). -/
theorem C8_scenario1_amended :
    calculate_null_points 215.5 "baerwald" 60.325 146.05 =
      .ok (66.04, 120.90, Real.sqrt (215.5 ^ 2 + 66.04 * 120.90),
        Real.sqrt (215.5 ^ 2 + 66.04 * 120.90) - 215.5,
        pyDegrees (Real.arcsin ((120.90 - 66.04) / (2 * Real.sqrt (215.5 ^ 2 + 66.04 * 120.90)))),
        pyDegrees (Real.arcsin ((66.04 + 120.90) / 2 / Real.sqrt (215.5 ^ 2 + 66.04 * 120.90)))) ∧
    |Real.sqrt (215.5 ^ 2 + 66.04 * 120.90) - 233.29| < 0.01 ∧
    |Real.sqrt (215.5 ^ 2 + 66.04 * 120.90) - 215.5 - 17.79| < 0.01 ∧
    |pyDegrees
        (Real.arcsin ((120.90 - 66.04) / (2 * Real.sqrt (215.5 ^ 2 + 66.04 * 120.90)))) -
      6.75| < 0.02 := by
  obtain ⟨h1, h2⟩ := sqrt_b2155_bounds
  obtain ⟨h3, h4⟩ := mounting_angle_2155_bounds
  refine ⟨cnp_baerwald_2155, ?_, ?_, ?_⟩ <;>
    · rw [abs_sub_lt_iff]
      constructor <;> linarith

/-- C5: `calc_null_position` computes `x = (d² + r₁² - r₂²)/(2d)` and
`y = -sqrt(r₁² - x²)` (negative root) in page units (`r₁` the radius from
the spindle, `r₂` the effective length, `d` the pivot distance, all scaled
by the `mm` unit); whenever `r₁² ≥ x²` the point satisfies both circle
equations exactly (hence within `1e-6`), and when `r₁² < x²` the `math.sqrt`
domain error propagates instead of the point being silently skipped. -/
theorem C5_null_position :
    ∀ L d r x : ℝ, 0 < d →
      x = ((d * mmUnit) ^ 2 + (r * mmUnit) ^ 2 - (L * mmUnit) ^ 2) / (2 * (d * mmUnit)) →
      (x ^ 2 ≤ (r * mmUnit) ^ 2 →
        calc_null_position L d r = .ok (x, -Real.sqrt ((r * mmUnit) ^ 2 - x ^ 2)) ∧
        |x ^ 2 + (-Real.sqrt ((r * mmUnit) ^ 2 - x ^ 2)) ^ 2 - (r * mmUnit) ^ 2| ≤ 1e-6 ∧
        |(x - d * mmUnit) ^ 2 + (-Real.sqrt ((r * mmUnit) ^ 2 - x ^ 2)) ^ 2 -
          (L * mmUnit) ^ 2| ≤ 1e-6) ∧
      ((r * mmUnit) ^ 2 < x ^ 2 →
        calc_null_position L d r = .error .mathDomain) := by
  intro L d r x hd hx
  have hmm : (0 : ℝ) < mmUnit := by norm_num [mmUnit]
  have hdd : (0 : ℝ) < d * mmUnit := by positivity
  have hne : d * mmUnit ≠ 0 := ne_of_gt hdd
  constructor
  · intro hle
    have hnn : (0 : ℝ) ≤ (r * mmUnit) ^ 2 - x ^ 2 := by linarith
    have hy2 : (-Real.sqrt ((r * mmUnit) ^ 2 - x ^ 2)) ^ 2 = (r * mmUnit) ^ 2 - x ^ 2 := by
      rw [neg_sq, Real.sq_sqrt hnn]
    refine ⟨?_, ?_, ?_⟩
    · unfold calc_null_position
      dsimp only
      rw [← hx, pySqrt_ok hnn]
    · rw [hy2, show x ^ 2 + ((r * mmUnit) ^ 2 - x ^ 2) - (r * mmUnit) ^ 2 = 0 by ring,
        abs_zero]
      norm_num
    · have key : (x - d * mmUnit) ^ 2 + ((r * mmUnit) ^ 2 - x ^ 2) - (L * mmUnit) ^ 2 = 0 := by
        rw [hx]
        field_simp
        ring
      rw [hy2, key, abs_zero]
      norm_num
  · intro hlt
    unfold calc_null_position
    dsimp only
    rw [← hx, pySqrt_error_of_neg (by linarith)]

/-- Witness for C5 at the Baerwald-like geometry `L = 233`, `d = 215.5`,
`r = 66`. -/
theorem C5_null_position_witness :
    ((((215.5 * mmUnit) ^ 2 + (66 * mmUnit) ^ 2 - (233 * mmUnit) ^ 2) /
          (2 * (215.5 * mmUnit))) ^ 2 ≤ (66 * mmUnit) ^ 2 →
      calc_null_position 233 215.5 66 =
        .ok (((215.5 * mmUnit) ^ 2 + (66 * mmUnit) ^ 2 - (233 * mmUnit) ^ 2) /
            (2 * (215.5 * mmUnit)),
          -Real.sqrt ((66 * mmUnit) ^ 2 -
            (((215.5 * mmUnit) ^ 2 + (66 * mmUnit) ^ 2 - (233 * mmUnit) ^ 2) /
              (2 * (215.5 * mmUnit))) ^ 2)) ∧
      |(((215.5 * mmUnit) ^ 2 + (66 * mmUnit) ^ 2 - (233 * mmUnit) ^ 2) /
            (2 * (215.5 * mmUnit))) ^ 2 +
          (-Real.sqrt ((66 * mmUnit) ^ 2 -
            (((215.5 * mmUnit) ^ 2 + (66 * mmUnit) ^ 2 - (233 * mmUnit) ^ 2) /
              (2 * (215.5 * mmUnit))) ^ 2)) ^ 2 - (66 * mmUnit) ^ 2| ≤ 1e-6 ∧
      |((((215.5 * mmUnit) ^ 2 + (66 * mmUnit) ^ 2 - (233 * mmUnit) ^ 2) /
            (2 * (215.5 * mmUnit))) - 215.5 * mmUnit) ^ 2 +
          (-Real.sqrt ((66 * mmUnit) ^ 2 -
            (((215.5 * mmUnit) ^ 2 + (66 * mmUnit) ^ 2 - (233 * mmUnit) ^ 2) /
              (2 * (215.5 * mmUnit))) ^ 2)) ^ 2 - (233 * mmUnit) ^ 2| ≤ 1e-6) ∧
    ((66 * mmUnit) ^ 2 <
        (((215.5 * mmUnit) ^ 2 + (66 * mmUnit) ^ 2 - (233 * mmUnit) ^ 2) /
          (2 * (215.5 * mmUnit))) ^ 2 →
      calc_null_position 233 215.5 66 = .error .mathDomain) :=
  C5_null_position 233 215.5 66
    (((215.5 * mmUnit) ^ 2 + (66 * mmUnit) ^ 2 - (233 * mmUnit) ^ 2) / (2 * (215.5 * mmUnit)))
    (by norm_num) rfl

/-- `first_good good k = some e` iff `e` is the largest index in `[1, k]`
with `good e` (the loop scans `k, k-1, ..., 1` and stops at the first
success). -/
theorem first_good_some_iff {good : ℕ → Bool} {k e : ℕ} :
    first_good good k = some e ↔
      1 ≤ e ∧ e ≤ k ∧ good e = true ∧ ∀ j : ℕ, e < j → j ≤ k → good j = false := by
  induction k with
  | zero =>
      constructor
      · intro h
        exact absurd h (by simp [first_good])
      · rintro ⟨h1, h2, -, -⟩
        omega
  | succ k ih =>
      rw [first_good]
      by_cases hg : good (k + 1) = true
      · rw [if_pos hg]
        constructor
        · intro h
          obtain rfl : k + 1 = e := Option.some.inj h
          exact ⟨by omega, le_refl _, hg, fun j hj1 hj2 => by omega⟩
        · rintro ⟨h1, h2, h3, h4⟩
          have he : e = k + 1 := by
            by_contra hne
            have hf := h4 (k + 1) (by omega) le_rfl
            rw [hf] at hg
            exact absurd hg (by simp)
          rw [he]
      · rw [if_neg hg]
        have hgf : good (k + 1) = false := by
          revert hg
          cases good (k + 1) <;> simp
        rw [ih]
        constructor
        · rintro ⟨h1, h2, h3, h4⟩
          refine ⟨h1, by omega, h3, fun j hj1 hj2 => ?_⟩
          rcases Nat.lt_or_ge j (k + 1) with hlt | hge
          · exact h4 j hj1 (by omega)
          · have hj : j = k + 1 := by omega
            rw [hj]
            exact hgf
        · rintro ⟨h1, h2, h3, h4⟩
          have he : e ≠ k + 1 := by
            intro hEq
            rw [hEq, hgf] at h3
            exact absurd h3 (by simp)
          exact ⟨h1, by omega, h3, fun j hj1 hj2 => h4 j hj1 (by omega)⟩

/-- `first_good good k = none` iff every index in `[1, k]` fails. -/
theorem first_good_none_iff {good : ℕ → Bool} {k : ℕ} :
    first_good good k = none ↔ ∀ j : ℕ, 1 ≤ j → j ≤ k → good j = false := by
  induction k with
  | zero =>
      simp only [first_good]
      exact ⟨fun _ j h1 h2 => by omega, fun _ => trivial⟩
  | succ k ih =>
      rw [first_good]
      by_cases hg : good (k + 1) = true
      · rw [if_pos hg]
        refine iff_of_false (by simp) ?_
        intro hall
        have := hall (k + 1) (by omega) le_rfl
        rw [this] at hg
        exact absurd hg (by simp)
      · rw [if_neg hg]
        have hgf : good (k + 1) = false := by
          revert hg
          cases good (k + 1) <;> simp
        rw [ih]
        constructor
        · intro hall j h1 h2
          rcases Nat.lt_or_ge j (k + 1) with hlt | hge
          · exact hall j h1 (by omega)
          · have hj : j = k + 1 := by omega
            rw [hj]
            exact hgf
        · intro hall j h1 h2
          exact hall j h1 (by omega)

/-- C6: the arc-extension resolution, for each side.  It first tries the
40 mm extension; if `calc_arc_angle` fails it scans extensions
`40, 39, ..., 1` and takes the first (i.e. largest) one that succeeds; when
every extension fails it falls back to the null radius itself.  The search
is a total function (structural recursion on the 40-element range), so it
always terminates after at most 40 probes, and the fallback is an ordinary
radius, not an error. -/
theorem C6_arc_extension_search :
    ∀ L d n1 n2 : ℝ,
      (((calc_arc_angle L d (n1 - 40)).isSome = true →
          resolve_arc_start L d n1 = n1 - 40) ∧
        (∀ e : ℕ, 1 ≤ e → e ≤ 40 →
          (calc_arc_angle L d (n1 - e)).isSome = true →
          (∀ j : ℕ, e < j → j ≤ 40 → (calc_arc_angle L d (n1 - j)).isSome = false) →
          resolve_arc_start L d n1 = n1 - e) ∧
        ((∀ j : ℕ, 1 ≤ j → j ≤ 40 → (calc_arc_angle L d (n1 - j)).isSome = false) →
          resolve_arc_start L d n1 = n1)) ∧
      (((calc_arc_angle L d (n2 + 40)).isSome = true →
          resolve_arc_end L d n2 = n2 + 40) ∧
        (∀ e : ℕ, 1 ≤ e → e ≤ 40 →
          (calc_arc_angle L d (n2 + e)).isSome = true →
          (∀ j : ℕ, e < j → j ≤ 40 → (calc_arc_angle L d (n2 + j)).isSome = false) →
          resolve_arc_end L d n2 = n2 + e) ∧
        ((∀ j : ℕ, 1 ≤ j → j ≤ 40 → (calc_arc_angle L d (n2 + j)).isSome = false) →
          resolve_arc_end L d n2 = n2)) := by
  intro L d n1 n2
  have hc : ((40 : ℕ) : ℝ) = (40 : ℝ) := by norm_num
  constructor
  · refine ⟨?_, ?_, ?_⟩
    · intro h
      unfold resolve_arc_start
      rw [if_pos h]
    · intro e h1 h2 hgood hfail
      unfold resolve_arc_start
      by_cases h40 : (calc_arc_angle L d (n1 - 40)).isSome = true
      · rw [if_pos h40]
        have he : e = 40 := by
          by_contra hne
          have hf := hfail 40 (by omega) le_rfl
          rw [hc] at hf
          rw [hf] at h40
          exact absurd h40 (by simp)
        rw [he, hc]
      · rw [if_neg h40]
        rw [first_good_some_iff.mpr ⟨h1, h2, hgood, hfail⟩]
    · intro hall
      unfold resolve_arc_start
      have h40 := hall 40 (by omega) le_rfl
      rw [hc] at h40
      rw [if_neg (by rw [h40]; simp)]
      rw [first_good_none_iff.mpr hall]
  · refine ⟨?_, ?_, ?_⟩
    · intro h
      unfold resolve_arc_end
      rw [if_pos h]
    · intro e h1 h2 hgood hfail
      unfold resolve_arc_end
      by_cases h40 : (calc_arc_angle L d (n2 + 40)).isSome = true
      · rw [if_pos h40]
        have he : e = 40 := by
          by_contra hne
          have hf := hfail 40 (by omega) le_rfl
          rw [hc] at hf
          rw [hf] at h40
          exact absurd h40 (by simp)
        rw [he, hc]
      · rw [if_neg h40]
        rw [first_good_some_iff.mpr ⟨h1, h2, hgood, hfail⟩]
    · intro hall
      unfold resolve_arc_end
      have h40 := hall 40 (by omega) le_rfl
      rw [hc] at h40
      rw [if_neg (by rw [h40]; simp)]
      rw [first_good_none_iff.mpr hall]

/-- Witness for C6: at `innerNull = outerNull = 300` every probed radius
(inner side `260..299`, outer side `301..340`) is outside the `[0, 200]` mm
guard, so both searches fall back to the null radius itself. -/
theorem C6_arc_extension_search_witness :
    resolve_arc_start 1 215.5 300 = 300 ∧ resolve_arc_end 1 215.5 300 = 300 := by
  have hfails : ∀ j : ℕ, 1 ≤ j → j ≤ 40 →
      (calc_arc_angle 1 215.5 (300 - j)).isSome = false := by
    intro j h1 h2
    have hj : (j : ℝ) ≤ 40 := by exact_mod_cast h2
    unfold calc_arc_angle
    rw [if_pos (Or.inr (by linarith : (300 : ℝ) - j > 200))]
    rfl
  have hfaile : ∀ j : ℕ, 1 ≤ j → j ≤ 40 →
      (calc_arc_angle 1 215.5 (300 + j)).isSome = false := by
    intro j h1 h2
    have hj : (1 : ℝ) ≤ j := by exact_mod_cast h1
    unfold calc_arc_angle
    rw [if_pos (Or.inr (by linarith : (300 : ℝ) + j > 200))]
    rfl
  exact ⟨((C6_arc_extension_search 1 215.5 300 300).1).2.2 hfails,
    ((C6_arc_extension_search 1 215.5 300 300).2).2.2 hfaile⟩

/-- Inversion of a successful run of `draw_arc_protractor` (either path):
the returned nulls are ordered, the effective length is Bauer's formula on
them, and the midpoint `asin` argument was within domain. -/
theorem draw_ok_elim {d ri ro n1 n2 L o a1 a2 : ℝ} {a : String} {cn : Option (ℝ × ℝ)}
    (h : draw_arc_protractor d a cn ri ro = .ok (n1, n2, L, o, a1, a2)) :
    n1 < n2 ∧ 0 ≤ d ^ 2 + n1 * n2 ∧ L = Real.sqrt (d ^ 2 + n1 * n2) ∧
      (n1 + n2) / 2 / L ≤ 1 := by
  cases cn with
  | none =>
      unfold draw_arc_protractor at h
      dsimp only at h
      split at h
      · exact absurd h (by simp)
      · rename_i m1 m2 mL mo ma1 ma2 ht
        split_ifs at h with c1 c2 c3
        simp only [Except.ok.injEq, Prod.mk.injEq] at h
        obtain ⟨e1, e2, e3, e4, e5, e6⟩ := h
        subst e1 e2 e3 e4 e5 e6
        obtain ⟨-, hnn, hL, -, -, -, -, -, harg2, -⟩ := cnp_ok_elim ht
        exact ⟨not_le.mp c3, hnn, hL, harg2⟩
  | some p =>
      obtain ⟨m1, m2⟩ := p
      unfold draw_arc_protractor at h
      dsimp only at h
      split_ifs at h with c1 c2 c3
      split at h
      · exact absurd h (by simp)
      · rename_i qL qo qa1 qa2 hq
        simp only [Except.ok.injEq, Prod.mk.injEq] at h
        obtain ⟨e1, e2, e3, e4, e5, e6⟩ := h
        subst e1 e2 e3 e4 e5 e6
        obtain ⟨hnn, hL, -, -, -, -, -, harg2, -⟩ := celfn_ok_elim hq
        exact ⟨not_le.mp c3, hnn, hL, harg2⟩

/-- C7 (amended): for every solution returned by `draw_arc_protractor`
(custom or named path) with `0 < d`, **provided the null radii lie inside
the `[0, 200]` mm guard of `calc_arc_angle`**, `calc_arc_angle` succeeds at
both null radii: the negative-discriminant branch is unreachable there
because the nulls lie on the arc circle by construction.  (Without the
extra bound the `[0, 200]` guard is reachable: see the counterexample.) -/
theorem C7_arc_angle_at_nulls :
    ∀ (d ri ro n1 n2 L o a1 a2 : ℝ) (a : String) (cn : Option (ℝ × ℝ)),
      0 < d →
      draw_arc_protractor d a cn ri ro = .ok (n1, n2, L, o, a1, a2) →
      0 ≤ n1 → n2 ≤ 200 →
      (calc_arc_angle L d n1).isSome = true ∧ (calc_arc_angle L d n2).isSome = true := by
  intro d ri ro n1 n2 L o a1 a2 a cn hd hok h1 h200
  obtain ⟨h12, hnn, hL, harg2⟩ := draw_ok_elim hok
  subst hL
  have hprod : 0 ≤ n1 * n2 := mul_nonneg h1 (by linarith)
  have hargpos : (0 : ℝ) < d ^ 2 + n1 * n2 := by positivity
  have hLpos : 0 < Real.sqrt (d ^ 2 + n1 * n2) := Real.sqrt_pos.mpr hargpos
  have hLsq : Real.sqrt (d ^ 2 + n1 * n2) ^ 2 = d ^ 2 + n1 * n2 := Real.sq_sqrt hargpos.le
  have hsum : n1 + n2 ≤ 2 * Real.sqrt (d ^ 2 + n1 * n2) := by
    rw [div_le_one hLpos] at harg2
    linarith
  have hfeas : (n2 - n1) ^ 2 ≤ 4 * d ^ 2 := by
    nlinarith [mul_le_mul hsum hsum (by linarith) (by linarith :
      (0 : ℝ) ≤ 2 * Real.sqrt (d ^ 2 + n1 * n2))]
  have hu : (0 : ℝ) < mmUnit := by norm_num [mmUnit]
  have hdu : (0 : ℝ) < d * mmUnit := by positivity
  constructor
  · unfold calc_arc_angle
    dsimp only
    rw [if_neg (by push_neg; constructor <;> linarith)]
    have hs2 : (Real.sqrt (d ^ 2 + n1 * n2) * mmUnit) ^ 2 = (d ^ 2 + n1 * n2) * mmUnit ^ 2 := by
      rw [mul_pow, hLsq]
    have hA : (d * mmUnit) ^ 2 + (n1 * mmUnit) ^ 2 -
        (Real.sqrt (d ^ 2 + n1 * n2) * mmUnit) ^ 2 = mmUnit ^ 2 * (n1 * (n1 - n2)) := by
      rw [hs2]
      ring
    have hAsq : ((d * mmUnit) ^ 2 + (n1 * mmUnit) ^ 2 -
        (Real.sqrt (d ^ 2 + n1 * n2) * mmUnit) ^ 2) ^ 2 ≤
        (2 * (d * mmUnit)) ^ 2 * (n1 * mmUnit) ^ 2 := by
      rw [hA]
      nlinarith [sq_nonneg (mmUnit ^ 2 * n1), hfeas, sq_nonneg n1, sq_nonneg mmUnit]
    have hx2 : (((d * mmUnit) ^ 2 + (n1 * mmUnit) ^ 2 -
        (Real.sqrt (d ^ 2 + n1 * n2) * mmUnit) ^ 2) / (2 * (d * mmUnit))) ^ 2 ≤
        (n1 * mmUnit) ^ 2 := by
      rw [div_pow, div_le_iff₀ (by positivity)]
      nlinarith [hAsq]
    rw [if_neg (by push_neg; linarith)]
    rfl
  · unfold calc_arc_angle
    dsimp only
    rw [if_neg (by push_neg; constructor <;> linarith)]
    have hs2 : (Real.sqrt (d ^ 2 + n1 * n2) * mmUnit) ^ 2 = (d ^ 2 + n1 * n2) * mmUnit ^ 2 := by
      rw [mul_pow, hLsq]
    have hA : (d * mmUnit) ^ 2 + (n2 * mmUnit) ^ 2 -
        (Real.sqrt (d ^ 2 + n1 * n2) * mmUnit) ^ 2 = mmUnit ^ 2 * (n2 * (n2 - n1)) := by
      rw [hs2]
      ring
    have hAsq : ((d * mmUnit) ^ 2 + (n2 * mmUnit) ^ 2 -
        (Real.sqrt (d ^ 2 + n1 * n2) * mmUnit) ^ 2) ^ 2 ≤
        (2 * (d * mmUnit)) ^ 2 * (n2 * mmUnit) ^ 2 := by
      rw [hA]
      nlinarith [sq_nonneg (mmUnit ^ 2 * n2), hfeas, sq_nonneg n2, sq_nonneg mmUnit]
    have hx2 : (((d * mmUnit) ^ 2 + (n2 * mmUnit) ^ 2 -
        (Real.sqrt (d ^ 2 + n1 * n2) * mmUnit) ^ 2) / (2 * (d * mmUnit))) ^ 2 ≤
        (n2 * mmUnit) ^ 2 := by
      rw [div_pow, div_le_iff₀ (by positivity)]
      nlinarith [hAsq]
    rw [if_neg (by push_neg; linarith)]
    rfl

/-- Counterexample to C7 as stated: custom nulls `(150, 250)` on grooves
`(60, 300)` pass the strict-ordering validation and the solver succeeds,
yet `calc_arc_angle` at the outer null returns `none` — the radius `250` mm
trips the `[0, 200]` mm guard. -/
theorem C7_counterexample :
    draw_arc_protractor 215.5 "baerwald" (some (150, 250)) 60 300 =
      .ok (150, 250, Real.sqrt (215.5 ^ 2 + 150 * 250),
        Real.sqrt (215.5 ^ 2 + 150 * 250) - 215.5,
        pyDegrees (Real.arcsin ((250 - 150) / (2 * Real.sqrt (215.5 ^ 2 + 150 * 250)))),
        pyDegrees (Real.arcsin ((150 + 250) / 2 / Real.sqrt (215.5 ^ 2 + 150 * 250)))) ∧
    calc_arc_angle (Real.sqrt (215.5 ^ 2 + 150 * 250)) 215.5 250 = none := by
  constructor
  · exact draw_custom_ok ⟨by norm_num, by norm_num, by norm_num⟩ (by norm_num) (by norm_num)
      (by norm_num)
  · unfold calc_arc_angle
    rw [if_pos (Or.inr (by norm_num : (250 : ℝ) > 200))]

/-- Witness for C7 on the custom Baerwald nulls at 215.5 mm. -/
theorem C7_arc_angle_at_nulls_witness :
    (calc_arc_angle (Real.sqrt (215.5 ^ 2 + 66.04 * 120.90)) 215.5 66.04).isSome = true ∧
      (calc_arc_angle (Real.sqrt (215.5 ^ 2 + 66.04 * 120.90)) 215.5 120.90).isSome = true :=
  C7_arc_angle_at_nulls 215.5 60.325 146.05 66.04 120.90
    (Real.sqrt (215.5 ^ 2 + 66.04 * 120.90)) (Real.sqrt (215.5 ^ 2 + 66.04 * 120.90) - 215.5)
    (pyDegrees (Real.arcsin ((120.90 - 66.04) / (2 * Real.sqrt (215.5 ^ 2 + 66.04 * 120.90)))))
    (pyDegrees (Real.arcsin ((66.04 + 120.90) / 2 / Real.sqrt (215.5 ^ 2 + 66.04 * 120.90))))
    "baerwald" (some (66.04, 120.90)) (by norm_num)
    (draw_custom_ok ⟨by norm_num, by norm_num, by norm_num⟩ (by norm_num) (by norm_num)
      (by norm_num))
    (by norm_num) (by norm_num)

/-! ## Lemmas for the label-angle normalisation loops -/

theorem label_sub_loop_of_le {a : ℝ} (h : a ≤ 90) : label_sub_loop a = a := by
  rw [label_sub_loop, if_neg (not_lt.mpr h)]

theorem label_sub_loop_one_step {a : ℝ} (h1 : 90 < a) (h2 : a ≤ 270) :
    label_sub_loop a = a - 180 := by
  rw [label_sub_loop, if_pos h1, label_sub_loop, if_neg (by push_neg; linarith)]

theorem label_add_loop_of_ge {a : ℝ} (h : -90 ≤ a) : label_add_loop a = a := by
  rw [label_add_loop, if_neg (not_lt.mpr h)]

theorem label_add_loop_one_step {a : ℝ} (h1 : a < -90) (h2 : -270 ≤ a) :
    label_add_loop a = a + 180 := by
  rw [label_add_loop, if_pos h1, label_add_loop, if_neg (by push_neg; linarith)]

/-- Behaviour of the normalisation on the `atan2` range `(-180, 180]`: the
result always lands in `[-90, 90]`; it is `-90` exactly when the input is
`-90`, and lands in the half-open `(-90, 90]` otherwise. -/
theorem label_angle_range {g : ℝ} (h1 : -180 < g) (h2 : g ≤ 180) :
    label_angle g ∈ Set.Icc (-90 : ℝ) 90 ∧
      (g = -90 → label_angle g = -90) ∧
      (g ≠ -90 → label_angle g ∈ Set.Ioc (-90 : ℝ) 90) := by
  unfold label_angle
  by_cases hg : 90 < g
  · rw [label_sub_loop_one_step hg (by linarith), label_add_loop_of_ge (by linarith)]
    refine ⟨⟨by linarith, by linarith⟩, fun hEq => by linarith, fun _ => ⟨by linarith, by linarith⟩⟩
  · push_neg at hg
    rw [label_sub_loop_of_le hg]
    by_cases hg2 : -90 ≤ g
    · rw [label_add_loop_of_ge hg2]
      exact ⟨⟨hg2, hg⟩, fun hEq => hEq, fun hne => ⟨lt_of_le_of_ne hg2 (Ne.symm hne), hg⟩⟩
    · push_neg at hg2
      rw [label_add_loop_one_step hg2 (by linarith)]
      refine ⟨⟨by linarith, by linarith⟩, fun hEq => by linarith,
        fun _ => ⟨by linarith, by linarith⟩⟩

/-- The grid angle, in degrees, lies in `(-180, 180]` (the `atan2` range). -/
theorem pyDegrees_pyAtan2_range (y x : ℝ) :
    -180 < pyDegrees (pyAtan2 y x) ∧ pyDegrees (pyAtan2 y x) ≤ 180 := by
  obtain ⟨h1, h2⟩ := Complex.arg_mem_Ioc ⟨x, y⟩
  have hπ : (0 : ℝ) < π := Real.pi_pos
  unfold pyDegrees pyAtan2
  constructor
  · rw [lt_div_iff₀ hπ]
    nlinarith
  · rw [div_le_iff₀ hπ]
    nlinarith

/-- C9 (amended): for every null-point grid, the grid itself is rotated by
the unnormalised angle `degrees(atan2(-x, y))` and the label by the result
of the 180°-shift loops; the label angle always lies in `[-90, 90]` and in
the half-open `(-90, 90]` whenever the grid angle is not exactly `-90°` —
but a grid angle of exactly `-90°` is left at `-90°`, outside `(-90, 90]`
(the loops only fire on `> 90` and `< -90`). -/
theorem C9_label_normalisation :
    ∀ (L d r : ℝ) (gd : GridDraw),
      draw_alignment_grid L d r = .ok gd →
      gd.grid_rotation = pyDegrees (pyAtan2 (-gd.x_pos) gd.y_pos) ∧
      gd.label_rotation = label_angle gd.grid_rotation ∧
      gd.label_rotation ∈ Set.Icc (-90 : ℝ) 90 ∧
      (gd.grid_rotation = -90 → gd.label_rotation = -90) ∧
      (gd.grid_rotation ≠ -90 → gd.label_rotation ∈ Set.Ioc (-90 : ℝ) 90) := by
  intro L d r gd h
  unfold draw_alignment_grid at h
  dsimp only at h
  split at h
  · exact absurd h (by simp)
  · rename_i s hs
    obtain rfl : gd = _ := (Except.ok.inj h).symm
    obtain ⟨hr1, hr2⟩ := pyDegrees_pyAtan2_range
      (-(((d * mmUnit) ^ 2 + (r * mmUnit) ^ 2 - (L * mmUnit) ^ 2) / (2 * (d * mmUnit)))) (-s)
    obtain ⟨ha, hb, hc⟩ := label_angle_range hr1 hr2
    exact ⟨rfl, rfl, ha, hb, hc⟩

/-- Counterexample to C9 as stated: with `effectiveLength = 115.5`,
`pivotToSpindle = 215.5`, `radius = 100` the null point lies exactly on the
spindle-pivot axis (`y = 0`, `x > 0`), the grid angle is exactly `-90°`,
and the normalisation loops leave the label angle at `-90°`, which is not
in `(-90°, 90°]`. -/
theorem C9_counterexample :
    draw_alignment_grid 115.5 215.5 100 = .ok ⟨100 * mmUnit, 0, -90, -90⟩ ∧
      ¬((-90 : ℝ) ∈ Set.Ioc (-90 : ℝ) 90) := by
  constructor
  · have hu : (0 : ℝ) < mmUnit := by norm_num [mmUnit]
    have hxv : ((215.5 * mmUnit) ^ 2 + (100 * mmUnit) ^ 2 - (115.5 * mmUnit) ^ 2) /
        (2 * (215.5 * mmUnit)) = 100 * mmUnit := by
      rw [show (2 : ℝ) * (215.5 * mmUnit) = 431 * mmUnit by ring]
      rw [div_eq_iff (by positivity)]
      ring
    have hang : pyDegrees (pyAtan2 (-(100 * mmUnit)) 0) = -90 := by
      unfold pyAtan2 pyDegrees
      rw [show Complex.arg ⟨0, -(100 * mmUnit)⟩ = -(π / 2) from
        Complex.arg_eq_neg_pi_div_two_iff.mpr ⟨rfl, by simp; positivity⟩]
      field_simp
      ring
    have hlab : label_angle (-90 : ℝ) = -90 := by
      unfold label_angle
      rw [label_sub_loop_of_le (by norm_num), label_add_loop_of_ge (by norm_num)]
    unfold draw_alignment_grid
    dsimp only
    rw [hxv, sub_self, pySqrt_ok (le_refl 0)]
    simp only
    rw [Real.sqrt_zero, neg_zero, hang, hlab]
  · simp

/-- Witness for C9 at a generic Baerwald-like grid (`L = 233`, `d = 215.5`,
`r = 66`). -/
theorem C9_label_normalisation_witness :
    (GridDraw.mk
        (((215.5 * mmUnit) ^ 2 + (66 * mmUnit) ^ 2 - (233 * mmUnit) ^ 2) /
          (2 * (215.5 * mmUnit)))
        (-Real.sqrt ((66 * mmUnit) ^ 2 -
          (((215.5 * mmUnit) ^ 2 + (66 * mmUnit) ^ 2 - (233 * mmUnit) ^ 2) /
            (2 * (215.5 * mmUnit))) ^ 2))
        (pyDegrees (pyAtan2
          (-(((215.5 * mmUnit) ^ 2 + (66 * mmUnit) ^ 2 - (233 * mmUnit) ^ 2) /
            (2 * (215.5 * mmUnit))))
          (-Real.sqrt ((66 * mmUnit) ^ 2 -
            (((215.5 * mmUnit) ^ 2 + (66 * mmUnit) ^ 2 - (233 * mmUnit) ^ 2) /
              (2 * (215.5 * mmUnit))) ^ 2))))
        (label_angle (pyDegrees (pyAtan2
          (-(((215.5 * mmUnit) ^ 2 + (66 * mmUnit) ^ 2 - (233 * mmUnit) ^ 2) /
            (2 * (215.5 * mmUnit))))
          (-Real.sqrt ((66 * mmUnit) ^ 2 -
            (((215.5 * mmUnit) ^ 2 + (66 * mmUnit) ^ 2 - (233 * mmUnit) ^ 2) /
              (2 * (215.5 * mmUnit))) ^ 2)))))).grid_rotation =
      pyDegrees (pyAtan2
        (-(GridDraw.mk
          (((215.5 * mmUnit) ^ 2 + (66 * mmUnit) ^ 2 - (233 * mmUnit) ^ 2) /
            (2 * (215.5 * mmUnit)))
          (-Real.sqrt ((66 * mmUnit) ^ 2 -
            (((215.5 * mmUnit) ^ 2 + (66 * mmUnit) ^ 2 - (233 * mmUnit) ^ 2) /
              (2 * (215.5 * mmUnit))) ^ 2))
          (pyDegrees (pyAtan2
            (-(((215.5 * mmUnit) ^ 2 + (66 * mmUnit) ^ 2 - (233 * mmUnit) ^ 2) /
              (2 * (215.5 * mmUnit))))
            (-Real.sqrt ((66 * mmUnit) ^ 2 -
              (((215.5 * mmUnit) ^ 2 + (66 * mmUnit) ^ 2 - (233 * mmUnit) ^ 2) /
                (2 * (215.5 * mmUnit))) ^ 2))))
          (label_angle (pyDegrees (pyAtan2
            (-(((215.5 * mmUnit) ^ 2 + (66 * mmUnit) ^ 2 - (233 * mmUnit) ^ 2) /
              (2 * (215.5 * mmUnit))))
            (-Real.sqrt ((66 * mmUnit) ^ 2 -
              (((215.5 * mmUnit) ^ 2 + (66 * mmUnit) ^ 2 - (233 * mmUnit) ^ 2) /
                (2 * (215.5 * mmUnit))) ^ 2)))))).x_pos)
        (GridDraw.mk
          (((215.5 * mmUnit) ^ 2 + (66 * mmUnit) ^ 2 - (233 * mmUnit) ^ 2) /
            (2 * (215.5 * mmUnit)))
          (-Real.sqrt ((66 * mmUnit) ^ 2 -
            (((215.5 * mmUnit) ^ 2 + (66 * mmUnit) ^ 2 - (233 * mmUnit) ^ 2) /
              (2 * (215.5 * mmUnit))) ^ 2))
          (pyDegrees (pyAtan2
            (-(((215.5 * mmUnit) ^ 2 + (66 * mmUnit) ^ 2 - (233 * mmUnit) ^ 2) /
              (2 * (215.5 * mmUnit))))
            (-Real.sqrt ((66 * mmUnit) ^ 2 -
              (((215.5 * mmUnit) ^ 2 + (66 * mmUnit) ^ 2 - (233 * mmUnit) ^ 2) /
                (2 * (215.5 * mmUnit))) ^ 2))))
          (label_angle (pyDegrees (pyAtan2
            (-(((215.5 * mmUnit) ^ 2 + (66 * mmUnit) ^ 2 - (233 * mmUnit) ^ 2) /
              (2 * (215.5 * mmUnit))))
            (-Real.sqrt ((66 * mmUnit) ^ 2 -
              (((215.5 * mmUnit) ^ 2 + (66 * mmUnit) ^ 2 - (233 * mmUnit) ^ 2) /
                (2 * (215.5 * mmUnit))) ^ 2)))))).y_pos) := by
  have hnn : (0 : ℝ) ≤ (66 * mmUnit) ^ 2 -
      (((215.5 * mmUnit) ^ 2 + (66 * mmUnit) ^ 2 - (233 * mmUnit) ^ 2) /
        (2 * (215.5 * mmUnit))) ^ 2 := by
    rw [show ((215.5 * mmUnit) ^ 2 + (66 * mmUnit) ^ 2 - (233 * mmUnit) ^ 2) /
        (2 * (215.5 * mmUnit)) = mmUnit * ((215.5 ^ 2 + 66 ^ 2 - 233 ^ 2) / 431) by
      rw [div_eq_iff (by norm_num [mmUnit] : (0 : ℝ) < 2 * (215.5 * mmUnit)).ne']
      ring]
    have h1 : mmUnit ^ 2 * ((215.5 ^ 2 + 66 ^ 2 - 233 ^ 2) / 431) ^ 2 ≤ mmUnit ^ 2 * 66 ^ 2 := by
      have hm : (0 : ℝ) ≤ mmUnit ^ 2 := sq_nonneg _
      have : ((215.5 ^ 2 + 66 ^ 2 - 233 ^ 2 : ℝ) / 431) ^ 2 ≤ (66 : ℝ) ^ 2 := by norm_num
      nlinarith
    calc (0 : ℝ) ≤ mmUnit ^ 2 * 66 ^ 2 - mmUnit ^ 2 * ((215.5 ^ 2 + 66 ^ 2 - 233 ^ 2) / 431) ^ 2 := by
            linarith
      _ = (66 * mmUnit) ^ 2 - (mmUnit * ((215.5 ^ 2 + 66 ^ 2 - 233 ^ 2) / 431)) ^ 2 := by ring
  exact (C9_label_normalisation 233 215.5 66 _ (by
    unfold draw_alignment_grid
    dsimp only
    rw [pySqrt_ok hnn])).1

end

end ArcProtractor

